import Mathlib

/-!
Shallow embedding of the PaddlePWA service worker (`sw.js`) and the page-side
`PWAManager` (`pwa.js`), for checking the caching/routing/sync specification.

Modelling conventions:
* Responses are immutable values; `clone()` in the host merely duplicates a
  single-read stream, so in the model storing and returning the "same" response
  is sound and clone is the identity.
* The cache storage is an association list of named generations, each an
  association list from URL keys to stored responses (entries are overwritten
  wholesale, matching the platform's last-writer-wins put semantics).
* A strategy invocation is parametrised by the outcome of the (at most one)
  network fetch it issues: either a transport failure or a response that
  settles after a given latency in milliseconds.
* An async JS function that can resolve to `undefined` is modelled with an
  `Option Response` result; `none` is the absence of a response.
-/

/-- A stored/returned HTTP response: body text, numeric status, and the
Content-Type header when one is set explicitly (`new Response(body, init)`). -/
structure Response where
  body : String
  status : Nat
  contentType : Option String
deriving DecidableEq

/-- Host semantics of `Response.ok`: status in the inclusive range 200–299. -/
def Response.ok (r : Response) : Bool :=
  decide (200 ≤ r.status) && decide (r.status < 300)

/-- The synthetic `new Response("Offline", { status: 503 })` used by
`cacheFirst`, `networkFirst` and the non-navigation path of
`networkFirstWithOffline`. -/
def offlineResponse : Response := ⟨"Offline", 503, none⟩

/-- The synthetic `new Response("App is offline", { status: 503, headers:
{ "Content-Type": "text/html" } })` appearing in `networkFirstWithOffline`. -/
def offlineHtmlResponse : Response := ⟨"App is offline", 503, some "text/html"⟩

/-- Request keys are URLs (the fetch handler only intercepts GET requests). -/
abbrev Url := String

/-- The entries of one named cache generation. -/
abbrev CacheEntries := List (Url × Response)

/-- The cache storage: named generations in creation order. -/
structure CacheStore where
  generations : List (String × CacheEntries)
deriving DecidableEq

/-- Look a URL up in one generation's entry list. -/
def lookupEntries : CacheEntries → Url → Option Response
  | [], _ => none
  | (u, r) :: rest, q => if u == q then some r else lookupEntries rest q

/-- Find a generation by name. -/
def findGen : List (String × CacheEntries) → String → Option CacheEntries
  | [], _ => none
  | (n, es) :: rest, q => if n == q then some es else findGen rest q

/-- Model of `cache.match(request)` on one opened named cache. -/
def cacheMatch (st : CacheStore) (name : String) (q : Url) : Option Response :=
  match findGen st.generations name with
  | none => none
  | some es => lookupEntries es q

/-- Helper for `globalMatch`: first hit across generations in order. -/
def matchAll : List (String × CacheEntries) → Url → Option Response
  | [], _ => none
  | (_, es) :: rest, q =>
    match lookupEntries es q with
    | some r => some r
    | none => matchAll rest q

/-- Model of `caches.match(request)`: searches every cache generation, in order. -/
def globalMatch (st : CacheStore) (q : Url) : Option Response :=
  matchAll st.generations q

/-- Overwrite (or append) the entry for a URL in one generation's list. -/
def putEntries : CacheEntries → Url → Response → CacheEntries
  | [], q, r => [(q, r)]
  | (u, r0) :: rest, q, r =>
    if u == q then (q, r) :: rest else (u, r0) :: putEntries rest q r

/-- Write into the named generation, creating it when absent
(`caches.open(name)` followed by `cache.put(request, response)`). -/
def putGen : List (String × CacheEntries) → String → Url → Response →
    List (String × CacheEntries)
  | [], name, q, r => [(name, [(q, r)])]
  | (n, es) :: rest, name, q, r =>
    if n == name then (n, putEntries es q r) :: rest
    else (n, es) :: putGen rest name q r

/-- Model of `caches.open(name)` then `cache.put(q, r)` as a store transformer. -/
def cachePut (st : CacheStore) (name : String) (q : Url) (r : Response) :
    CacheStore :=
  ⟨putGen st.generations name q r⟩

/-- The store with no cache generations at all. -/
def emptyStore : CacheStore := ⟨[]⟩

/-! Configuration constants of `sw.js`. -/

def CACHE_NAME : String := "padel-tournament-v2.1.0"

def STATIC_CACHE : String := "padel-static-v2.1.0"

def DYNAMIC_CACHE : String := "padel-dynamic-v2.1.0"

def OFFLINE_PAGE : String := "/offline.html"

def STATIC_ASSETS : List String :=
  [ "/"
  , "/index.html"
  , "/leaderboard.html"
  , "/manifest.json"
  , "/offline.html"
  , "https://cdnjs.cloudflare.com/ajax/libs/font-awesome/6.0.0-beta3/css/all.min.css"
  , "https://www.gstatic.com/firebasejs/9.22.0/firebase-app.js"
  , "https://www.gstatic.com/firebasejs/9.22.0/firebase-database.js" ]

def DYNAMIC_ASSETS : List String :=
  [ "https://www.gstatic.com/firebasejs/"
  , "https://cdnjs.cloudflare.com/"
  , "https://fonts.googleapis.com/"
  , "https://fonts.gstatic.com/" ]

/-- The 5000 ms deadline raced against the fetch in `networkFirst`
(the spec's "5 time units"). -/
def networkTimeoutMs : Nat := 5000

/-! String containment, mirroring JavaScript `String.prototype.includes`. -/

/-- Whether the first character list occurs at the very front of the second. -/
def isLeading : List Char → List Char → Bool
  | [], _ => true
  | _ :: _, [] => false
  | a :: as, b :: bs => a == b && isLeading as bs

/-- Whether the first character list occurs contiguously anywhere in the
second. -/
def occursIn (pat : List Char) : List Char → Bool
  | [] => pat.isEmpty
  | c :: rest => isLeading pat (c :: rest) || occursIn pat rest

/-- JavaScript `url.includes(pat)`: substring containment. -/
def urlIncludes (url pat : String) : Bool :=
  occursIn pat.data url.data

/-! The fetch-event routing classifier. -/

/-- The metadata of an intercepted request that the fetch handler reads. -/
structure Request where
  url : Url
  method : String
  destination : String
  mode : String
deriving DecidableEq

/-- The four caching strategies of the Strategy Engine. -/
inductive Strategy where
  | CACHE_FIRST
  | STALE_WHILE_REVALIDATE
  | NETWORK_FIRST
  | NETWORK_FIRST_WITH_OFFLINE
deriving DecidableEq

/-- The routing decision of the fetch event listener: `none` means the handler
returns without calling `event.respondWith`, so the request passes through to
the network untouched; `some s` means strategy `s` handles it.  Transcribed
from the listener's cascade of `if` tests, including its use of
`request.url.includes(...)` (substring containment) for both asset lists. -/
def classifyFetch (req : Request) : Option Strategy :=
  if req.method ≠ "GET" then none
  else if STATIC_ASSETS.any (fun asset => urlIncludes req.url asset) then
    some Strategy.CACHE_FIRST
  else if DYNAMIC_ASSETS.any (fun pat => urlIncludes req.url pat) then
    some Strategy.STALE_WHILE_REVALIDATE
  else if urlIncludes req.url "firebase" || urlIncludes req.url "googleapis" then
    some Strategy.NETWORK_FIRST
  else if req.destination = "document" then
    some Strategy.NETWORK_FIRST_WITH_OFFLINE
  else
    some Strategy.NETWORK_FIRST

/-! The Strategy Engine. -/

/-- The outcome of the single network fetch a strategy invocation issues:
a transport failure (the fetch promise rejects), or a response settling after
`latency` milliseconds. -/
inductive NetOutcome where
  | failure
  | success (latency : Nat) (resp : Response)
deriving DecidableEq

/-- What one strategy invocation produces: the value the returned promise
resolves to (`none` models resolving to `undefined`), the cache storage after
the invocation's writes, and whether a network fetch was issued at all. -/
structure StratResult where
  response : Option Response
  store : CacheStore
  fetched : Bool
deriving DecidableEq

/-- Transcription of `cacheFirst(request)`: `caches.match(request)` (all generations); a hit is
returned with no fetch; on a miss, fetch, and when `networkResponse.ok` store a
clone into STATIC_CACHE; a non-ok response is returned uncached; the catch
turns a transport failure into the synthetic 503. -/
def cacheFirst (st : CacheStore) (u : Url) (net : NetOutcome) : StratResult :=
  match globalMatch st u with
  | some c => ⟨some c, st, false⟩
  | none =>
    match net with
    | NetOutcome.failure => ⟨some offlineResponse, st, true⟩
    | NetOutcome.success _ r =>
      if r.ok then ⟨some r, cachePut st STATIC_CACHE u r, true⟩
      else ⟨some r, st, true⟩

/-- Transcription of `networkFirst(request)`: `Promise.race` of the fetch and a 5000 ms
rejecting timer — the fetch wins exactly when its latency is below the
deadline (at the deadline the timer has already rejected).  A winning ok
response is cloned into DYNAMIC_CACHE; a winning non-ok response is returned
uncached; when the timer wins the abandoned fetch's eventual result is
discarded and never written.  The catch path falls back to
`caches.match(request)` and then the synthetic 503. -/
def networkFirst (st : CacheStore) (u : Url) (net : NetOutcome) : StratResult :=
  match net with
  | NetOutcome.success t r =>
    if t < networkTimeoutMs then
      if r.ok then ⟨some r, cachePut st DYNAMIC_CACHE u r, true⟩
      else ⟨some r, st, true⟩
    else
      match globalMatch st u with
      | some c => ⟨some c, st, true⟩
      | none => ⟨some offlineResponse, st, true⟩
  | NetOutcome.failure =>
    match globalMatch st u with
    | some c => ⟨some c, st, true⟩
    | none => ⟨some offlineResponse, st, true⟩

/-- Transcription of `staleWhileRevalidate(request)`: reads `cachedResponse` from the opened
DYNAMIC_CACHE only; always issues the refresh fetch, whose fulfilled path
stores a clone into DYNAMIC_CACHE when ok and returns the network response,
and whose catch path resolves to the previously read `cachedResponse` — which
is `undefined` on a miss.  The function returns
`cachedResponse || fetchPromise`, so a hit resolves immediately and never
waits on the refresh. -/
def staleWhileRevalidate (st : CacheStore) (u : Url) (net : NetOutcome) :
    StratResult :=
  let cached := cacheMatch st DYNAMIC_CACHE u
  let refreshed :=
    match net with
    | NetOutcome.success _ r =>
      if r.ok then cachePut st DYNAMIC_CACHE u r else st
    | NetOutcome.failure => st
  let settled :=
    match net with
    | NetOutcome.success _ r => some r
    | NetOutcome.failure => cached
  ⟨match cached with | some c => some c | none => settled, refreshed, true⟩

/-- Transcription of `networkFirstWithOffline(request)`: plain fetch (no timer); ok responses
are cloned into DYNAMIC_CACHE; non-ok responses returned uncached; on
transport failure fall back to `caches.match(request)`.  In the navigation
branch the source returns `caches.match(OFFLINE_PAGE) || new Response(...)`;
the left operand is a promise object and hence always truthy, so the
synthetic 503 HTML operand is unreachable and the function resolves to the
promise's value — the cached offline page, or `undefined` when it is not
cached. -/
def networkFirstWithOffline (st : CacheStore) (u : Url) (isNav : Bool)
    (net : NetOutcome) : StratResult :=
  match net with
  | NetOutcome.success _ r =>
    if r.ok then ⟨some r, cachePut st DYNAMIC_CACHE u r, true⟩
    else ⟨some r, st, true⟩
  | NetOutcome.failure =>
    match globalMatch st u with
    | some c => ⟨some c, st, true⟩
    | none =>
      if isNav then ⟨globalMatch st OFFLINE_PAGE, st, true⟩
      else ⟨some offlineResponse, st, true⟩

/-- The whole fetch event listener: classify, then run the selected strategy
(`networkFirstWithOffline` receives whether `request.mode === "navigate"`).
`none` means the listener returned without intercepting. -/
def handleFetch (req : Request) (st : CacheStore) (net : NetOutcome) :
    Option StratResult :=
  match classifyFetch req with
  | none => none
  | some Strategy.CACHE_FIRST => some (cacheFirst st req.url net)
  | some Strategy.STALE_WHILE_REVALIDATE =>
    some (staleWhileRevalidate st req.url net)
  | some Strategy.NETWORK_FIRST => some (networkFirst st req.url net)
  | some Strategy.NETWORK_FIRST_WITH_OFFLINE =>
    some (networkFirstWithOffline st req.url (req.mode == "navigate") net)

/-- The cache storage after the fetch event listener ran: unchanged when the
request was not intercepted. -/
def handleFetchStore (req : Request) (st : CacheStore) (net : NetOutcome) :
    CacheStore :=
  match handleFetch req st net with
  | none => st
  | some res => res.store

/-- Comparison definition for the spec's wording of cache-first (claim C5
only): look the request up in the STATIC cache generation alone, the rest
identical to `cacheFirst`. -/
def cacheFirstStaticOnly (st : CacheStore) (u : Url) (net : NetOutcome) :
    StratResult :=
  match cacheMatch st STATIC_CACHE u with
  | some c => ⟨some c, st, false⟩
  | none =>
    match net with
    | NetOutcome.failure => ⟨some offlineResponse, st, true⟩
    | NetOutcome.success _ r =>
      if r.ok then ⟨some r, cachePut st STATIC_CACHE u r, true⟩
      else ⟨some r, st, true⟩

/-! The Cache Lifecycle Manager's activation sweep. -/

/-- The activate listener's cleanup: for every name in `caches.keys()`, delete
the generation unless its name is STATIC_CACHE, DYNAMIC_CACHE or CACHE_NAME;
since generations are keyed by name, this keeps exactly the generations
bearing one of the three current names, contents untouched. -/
def activateCleanup (st : CacheStore) : CacheStore :=
  ⟨st.generations.filter fun g =>
    g.1 == STATIC_CACHE || g.1 == DYNAMIC_CACHE || g.1 == CACHE_NAME⟩

/-! The Retry Coordinator (`syncTournamentData` / `syncPlayerData`). -/

/-- Outcome of the batch POST: a transport failure, or an HTTP response with
the given status. -/
inductive PostOutcome where
  | transportError
  | httpStatus (status : Nat)
deriving DecidableEq

/-- Host `response.ok` for a bare status. -/
def respStatusOk (s : Nat) : Bool := decide (200 ≤ s) && decide (s < 300)

/-- Observable effects of one sync function run: whether the POST was issued,
which SYNC_SUCCESS domains were broadcast, and which retry tags were
registered with the platform scheduler. -/
structure SyncResult where
  posted : Bool
  broadcasts : List String
  retryTags : List String
deriving DecidableEq

/-- Whether `!batch || batch.length === 0` holds (the stored data may be a
missing value or an empty list). -/
def batchEmpty : Option (List String) → Bool
  | none => true
  | some l => l.isEmpty

/-- Transcription of `syncTournamentData()`: empty batch is a no-op; on ok status broadcast
`SYNC_SUCCESS tournaments`; a non-ok status throws inside the try, so both it
and a transport error reach the catch, which registers the
`sync-tournament-data` retry tag. -/
def syncTournamentData (batch : Option (List String)) (post : PostOutcome) :
    SyncResult :=
  if batchEmpty batch then ⟨false, [], []⟩
  else
    match post with
    | PostOutcome.transportError => ⟨true, [], ["sync-tournament-data"]⟩
    | PostOutcome.httpStatus s =>
      if respStatusOk s then ⟨true, ["tournaments"], []⟩
      else ⟨true, [], ["sync-tournament-data"]⟩

/-- Transcription of `syncPlayerData()`: empty batch is a no-op; on ok status broadcast
`SYNC_SUCCESS players`; unlike `syncTournamentData` there is no throw on a
non-ok status, so only a transport error reaches the catch that registers the
`sync-player-data` retry tag — a non-ok status produces no broadcast and no
retry registration. -/
def syncPlayerData (batch : Option (List String)) (post : PostOutcome) :
    SyncResult :=
  if batchEmpty batch then ⟨false, [], []⟩
  else
    match post with
    | PostOutcome.transportError => ⟨true, [], ["sync-player-data"]⟩
    | PostOutcome.httpStatus s =>
      if respStatusOk s then ⟨true, ["players"], []⟩
      else ⟨true, [], []⟩

/-! The page-side `PWAManager` install-prompt state. -/

/-- The slice of `PWAManager` state that `promptInstall` and
`getInstallationStatus` touch: the stored `beforeinstallprompt` event (opaque)
and the installed flag. -/
structure PWAManagerState where
  deferredPrompt : Option Unit
  isInstalled : Bool
deriving DecidableEq

/-- How the attempted prompt resolves: the user's choice, or an exception from
`prompt()` / `userChoice` (caught by the catch block). -/
inductive UserChoice where
  | accepted
  | dismissed
  | errorThrown
deriving DecidableEq

/-- Transcription of `promptInstall()`: with no stored prompt, return false and change nothing;
otherwise prompt, return true exactly on "accepted", false on dismissal and on
a caught exception, and in every one of those paths the finally block clears
`deferredPrompt`.  Totality of this definition is the "never throws"
guarantee: every path resolves to a boolean. -/
def promptInstall (st : PWAManagerState) (choice : UserChoice) :
    Bool × PWAManagerState :=
  match st.deferredPrompt with
  | none => (false, st)
  | some _ =>
    let cleared : PWAManagerState := ⟨none, st.isInstalled⟩
    match choice with
    | UserChoice.accepted => (true, cleared)
    | UserChoice.dismissed => (false, cleared)
    | UserChoice.errorThrown => (false, cleared)

/-- The state-derived fields of `getInstallationStatus()` (`isOnline` and
`hasNotifications` read platform globals, not manager state, and are out of
the model's scope). -/
structure InstallationStatus where
  isInstalled : Bool
  canInstall : Bool
deriving DecidableEq

/-- Transcription of `getInstallationStatus()`: `canInstall` is `!!this.deferredPrompt`. -/
def getInstallationStatus (st : PWAManagerState) : InstallationStatus :=
  ⟨st.isInstalled, st.deferredPrompt.isSome⟩

/-! Concrete fixtures used by witnesses and counterexamples. -/

/-- A response sitting in the DYNAMIC generation in the fixtures. -/
def respCachedDyn : Response := ⟨"cached dynamic copy", 200, none⟩

/-- A fresh response the network would deliver in the fixtures. -/
def respFresh : Response := ⟨"fresh network copy", 200, none⟩

/-- The fixture request URL. -/
def demoUrl : Url := "https://api.example.com/data"

/-- A storage whose only generation is DYNAMIC_CACHE, holding `demoUrl`. -/
def storeWithDyn : CacheStore :=
  ⟨[(DYNAMIC_CACHE, [(demoUrl, respCachedDyn)])]⟩

/-- A GET request for a Google-fonts stylesheet: covered by a dynamic-asset
URL prefix and equal to no static-asset literal. -/
def fontsReq : Request :=
  ⟨"https://fonts.googleapis.com/css2?family=Roboto", "GET", "style", "cors"⟩

/-- A non-GET request fixture. -/
def postReq : Request :=
  ⟨"https://api.example.com/submit", "POST", "", "cors"⟩

/-! Helper lemmas about the cache store. -/

/-- Looking up the key just written into an entry list finds the new value. -/
theorem lookupEntries_putEntries (es : CacheEntries) (q : Url) (r : Response) :
    lookupEntries (putEntries es q r) q = some r := by
  induction es with
  | nil => simp [putEntries, lookupEntries]
  | cons e rest ih =>
    obtain ⟨u, r0⟩ := e
    cases h : (u == q) with
    | true => simp [putEntries, lookupEntries, h]
    | false => simp [putEntries, lookupEntries, h, ih]

/-- Helper for `cacheMatch_cachePut`, by induction on the generation list. -/
theorem cacheMatch_putGen (gens : List (String × CacheEntries)) (name : String)
    (q : Url) (r : Response) :
    cacheMatch ⟨putGen gens name q r⟩ name q = some r := by
  induction gens with
  | nil => simp [cacheMatch, putGen, findGen, lookupEntries]
  | cons g rest ih =>
    obtain ⟨n, es⟩ := g
    cases h : (n == name) with
    | true =>
      simp [cacheMatch, putGen, findGen, h, lookupEntries_putEntries]
    | false =>
      simpa [cacheMatch, putGen, findGen, h] using ih

/-- A write into a named generation is visible to a later match on it. -/
theorem cacheMatch_cachePut (st : CacheStore) (name : String) (q : Url)
    (r : Response) :
    cacheMatch (cachePut st name q r) name q = some r := by
  obtain ⟨gens⟩ := st
  exact cacheMatch_putGen gens name q r

/-! Claim theorems. -/

/-- C1 (code_bug evidence): the Google-fonts request's URL equals no
static-asset literal and is covered by a dynamic-asset URL prefix, yet the
classifier selects CACHE_FIRST rather than STALE_WHILE_REVALIDATE — the
static-asset rule matches by substring containment and STATIC_ASSETS contains
"/", a substring of every URL, so the first branch fires on every GET request
and the stale-while-revalidate branch is unreachable. -/
theorem classifyFetch_fontsReq_cache_first :
    (STATIC_ASSETS.all fun a => !(fontsReq.url == a)) = true ∧
    (DYNAMIC_ASSETS.any fun p => isLeading p.data fontsReq.url.data) = true ∧
    classifyFetch fontsReq = some Strategy.CACHE_FIRST := by
  refine ⟨by decide, by decide, by decide⟩

/-- C2 (counterexample): on a DYNAMIC-cache miss whose refresh fetch fails
with a transport error, `staleWhileRevalidate` resolves to no response at all
(the catch hands back the `undefined` cached value), refuting the claim that
every strategy invocation returns a genuine or synthetic response. -/
theorem swr_miss_transport_failure_absent :
    (staleWhileRevalidate emptyStore "https://fonts.gstatic.com/s/roboto.woff2"
      NetOutcome.failure).response = none := by
  decide

/-- C2 (amended): `cacheFirst` and `networkFirst` always resolve to a response
(network, cached, or synthetic 503); `staleWhileRevalidate` resolves to no
response exactly on a DYNAMIC-cache miss combined with a transport failure;
`networkFirstWithOffline` resolves to no response exactly on a transport
failure with no cached entry, on a navigation whose offline page is also
uncached. -/
theorem strategy_response_totality (st : CacheStore) (u : Url) (isNav : Bool)
    (net : NetOutcome) :
    (cacheFirst st u net).response.isSome = true ∧
    (networkFirst st u net).response.isSome = true ∧
    ((staleWhileRevalidate st u net).response = none ↔
      (cacheMatch st DYNAMIC_CACHE u = none ∧ net = NetOutcome.failure)) ∧
    ((networkFirstWithOffline st u isNav net).response = none ↔
      (net = NetOutcome.failure ∧ globalMatch st u = none ∧ isNav = true ∧
        globalMatch st OFFLINE_PAGE = none)) := by
  refine ⟨?_, ?_, ?_, ?_⟩
  · cases hg : globalMatch st u with
    | some c => simp [cacheFirst, hg]
    | none =>
      cases net with
      | failure => simp [cacheFirst, hg]
      | success t r => cases hok : r.ok <;> simp [cacheFirst, hg, hok]
  · cases net with
    | failure => cases hg : globalMatch st u <;> simp [networkFirst, hg]
    | success t r =>
      by_cases ht : t < networkTimeoutMs
      · cases hok : r.ok <;> simp [networkFirst, ht, hok]
      · cases hg : globalMatch st u <;> simp [networkFirst, ht, hg]
  · cases hc : cacheMatch st DYNAMIC_CACHE u with
    | some c => cases net <;> simp [staleWhileRevalidate, hc]
    | none =>
      cases net with
      | failure => simp [staleWhileRevalidate, hc]
      | success t r => simp [staleWhileRevalidate, hc]
  · cases net with
    | success t r => cases hok : r.ok <;> simp [networkFirstWithOffline, hok]
    | failure =>
      cases hg : globalMatch st u with
      | some c => simp [networkFirstWithOffline, hg]
      | none => cases isNav <;> simp [networkFirstWithOffline, hg]

/-- C3 (code_bug evidence): a failed full-page navigation with an empty cache
storage (no entry for the page, no cached offline document) resolves to no
response, not to the synthetic 503 HTML response — that operand of `||` is
dead because the unawaited `caches.match(OFFLINE_PAGE)` promise is always
truthy. -/
theorem nfwo_offline_page_missing_absent :
    (networkFirstWithOffline emptyStore "/tournaments/live" true
      NetOutcome.failure).response = none ∧
    (networkFirstWithOffline emptyStore "/tournaments/live" true
      NetOutcome.failure).response ≠ some offlineHtmlResponse := by
  refine ⟨by decide, by decide⟩

/-- C4 (code_bug evidence): with a non-empty batch and an HTTP 500 reply,
`syncTournamentData` registers its retry tag but `syncPlayerData` registers
nothing (it has no throw on a non-ok status, so only transport errors reach
its catch); a transport error does register the player tag. -/
theorem syncPlayerData_http_error_no_retry :
    syncPlayerData (some ["p1"]) (PostOutcome.httpStatus 500) =
      ⟨true, [], []⟩ ∧
    syncTournamentData (some ["t1"]) (PostOutcome.httpStatus 500) =
      ⟨true, [], ["sync-tournament-data"]⟩ ∧
    syncPlayerData (some ["p1"]) PostOutcome.transportError =
      ⟨true, [], ["sync-player-data"]⟩ := by
  refine ⟨by decide, by decide, by decide⟩

/-- C5 (counterexample): with the entry cached only in the DYNAMIC generation,
`cacheFirst` (whose lookup is `caches.match`, spanning every generation)
returns the cached copy without fetching, while the claim's wording — a
lookup in the STATIC cache alone — would miss, fetch, and return the fresh
network response. -/
theorem cacheFirst_reads_beyond_static :
    (cacheFirst storeWithDyn demoUrl
      (NetOutcome.success 1 respFresh)).response = some respCachedDyn ∧
    (cacheFirst storeWithDyn demoUrl
      (NetOutcome.success 1 respFresh)).fetched = false ∧
    (cacheFirstStaticOnly storeWithDyn demoUrl
      (NetOutcome.success 1 respFresh)).response = some respFresh ∧
    (cacheFirstStaticOnly storeWithDyn demoUrl
      (NetOutcome.success 1 respFresh)).fetched = true ∧
    respCachedDyn ≠ respFresh := by
  refine ⟨by decide, by decide, by decide, by decide, by decide⟩

/-- C5 (amended): `cacheFirst` looks the request up across all cache
generations: any hit is returned immediately with no network fetch and no
write; on a miss it fetches, returns the network response, storing a clone
into the STATIC generation exactly when the status is ok, and returns the
synthetic 503 on transport failure. -/
theorem cacheFirst_behavior (st : CacheStore) (u : Url) (net : NetOutcome) :
    (∀ c, globalMatch st u = some c →
      cacheFirst st u net = ⟨some c, st, false⟩) ∧
    (globalMatch st u = none →
      (cacheFirst st u net).fetched = true ∧
      (∀ t r, net = NetOutcome.success t r →
        (cacheFirst st u net).response = some r ∧
        (r.ok = true →
          (cacheFirst st u net).store = cachePut st STATIC_CACHE u r) ∧
        (r.ok = false → (cacheFirst st u net).store = st)) ∧
      (net = NetOutcome.failure →
        cacheFirst st u net = ⟨some offlineResponse, st, true⟩)) := by
  constructor
  · intro c hc
    simp [cacheFirst, hc]
  · intro hg
    refine ⟨?_, ?_, ?_⟩
    · cases net with
      | failure => simp [cacheFirst, hg]
      | success t r => cases hok : r.ok <;> simp [cacheFirst, hg, hok]
    · intro t r hnet
      subst hnet
      refine ⟨?_, ?_, ?_⟩
      · cases hok : r.ok <;> simp [cacheFirst, hg, hok]
      · intro hok; simp [cacheFirst, hg, hok]
      · intro hok; simp [cacheFirst, hg, hok]
    · intro hnet
      subst hnet
      simp [cacheFirst, hg]

/-- Witness for `cacheFirst_behavior`: at the concrete store whose only entry
lives in the DYNAMIC generation, the hit branch returns the cached copy with
no fetch and no write. -/
theorem cacheFirst_behavior_witness :
    cacheFirst storeWithDyn demoUrl NetOutcome.failure =
      ⟨some respCachedDyn, storeWithDyn, false⟩ :=
  (cacheFirst_behavior storeWithDyn demoUrl NetOutcome.failure).1
    respCachedDyn (by decide)

/-- C6: `networkFirst` races the fetch against the 5000 ms deadline.  A fetch
settling below the deadline wins: ok responses are stored into the DYNAMIC
generation and returned, non-ok responses returned uncached.  When the
deadline wins, or on transport failure, a previously cached entry is returned
when present (the eventual network response is discarded and never equals the
result when it differs from the cached entry) and the synthetic 503
otherwise. -/
theorem networkFirst_behavior (st : CacheStore) (u : Url) :
    (∀ t r, t < networkTimeoutMs → r.ok = true →
      networkFirst st u (NetOutcome.success t r) =
        ⟨some r, cachePut st DYNAMIC_CACHE u r, true⟩) ∧
    (∀ t r, t < networkTimeoutMs → r.ok = false →
      networkFirst st u (NetOutcome.success t r) = ⟨some r, st, true⟩) ∧
    (∀ t r c, networkTimeoutMs ≤ t → globalMatch st u = some c →
      networkFirst st u (NetOutcome.success t r) = ⟨some c, st, true⟩) ∧
    (∀ t r, networkTimeoutMs ≤ t → globalMatch st u = none →
      networkFirst st u (NetOutcome.success t r) =
        ⟨some offlineResponse, st, true⟩) ∧
    (∀ c, globalMatch st u = some c →
      networkFirst st u NetOutcome.failure = ⟨some c, st, true⟩) ∧
    (globalMatch st u = none →
      networkFirst st u NetOutcome.failure =
        ⟨some offlineResponse, st, true⟩) ∧
    (∀ t r c, networkTimeoutMs ≤ t → globalMatch st u = some c → r ≠ c →
      (networkFirst st u (NetOutcome.success t r)).response ≠ some r) := by
  have hto : ∀ t r, networkTimeoutMs ≤ t → ∀ c, globalMatch st u = some c →
      networkFirst st u (NetOutcome.success t r) = ⟨some c, st, true⟩ := by
    intro t r ht c hg
    simp [networkFirst, Nat.not_lt.mpr ht, hg]
  refine ⟨?_, ?_, ?_, ?_, ?_, ?_, ?_⟩
  · intro t r ht hok; simp [networkFirst, ht, hok]
  · intro t r ht hok; simp [networkFirst, ht, hok]
  · intro t r c ht hg; exact hto t r ht c hg
  · intro t r ht hg; simp [networkFirst, Nat.not_lt.mpr ht, hg]
  · intro c hg; simp [networkFirst, hg]
  · intro hg; simp [networkFirst, hg]
  · intro t r c ht hg hrc
    rw [hto t r ht c hg]
    intro h
    have h' : some c = some r := h
    exact hrc (Option.some.inj h').symm

/-- Witness for `networkFirst_behavior`: latency 6000 ms beats the 5000 ms
deadline and the prior DYNAMIC entry is returned, not the fresh network
response. -/
theorem networkFirst_behavior_witness :
    networkFirst storeWithDyn demoUrl (NetOutcome.success 6000 respFresh) =
      ⟨some respCachedDyn, storeWithDyn, true⟩ :=
  (networkFirst_behavior storeWithDyn demoUrl).2.2.1 6000 respFresh
    respCachedDyn (by decide) (by decide)

/-- C7: `staleWhileRevalidate` always issues the refresh fetch; a
DYNAMIC-cache hit is returned whatever the network outcome (so the hit never
waits on the refresh); the refresh stores a clone into the DYNAMIC generation
exactly when the network response is ok, after which a lookup finds the
refreshed content. -/
theorem staleWhileRevalidate_behavior (st : CacheStore) (u : Url)
    (net : NetOutcome) :
    (staleWhileRevalidate st u net).fetched = true ∧
    (∀ c, cacheMatch st DYNAMIC_CACHE u = some c →
      (staleWhileRevalidate st u net).response = some c) ∧
    (∀ t r, net = NetOutcome.success t r → r.ok = true →
      (staleWhileRevalidate st u net).store = cachePut st DYNAMIC_CACHE u r ∧
      cacheMatch (staleWhileRevalidate st u net).store DYNAMIC_CACHE u =
        some r) ∧
    (∀ t r, net = NetOutcome.success t r → r.ok = false →
      (staleWhileRevalidate st u net).store = st) ∧
    (net = NetOutcome.failure → (staleWhileRevalidate st u net).store = st) := by
  refine ⟨?_, ?_, ?_, ?_, ?_⟩
  · cases net <;> rfl
  · intro c hc
    simp [staleWhileRevalidate, hc]
  · intro t r hnet hok
    subst hnet
    constructor
    · simp [staleWhileRevalidate, hok]
    · simp [staleWhileRevalidate, hok, cacheMatch_cachePut]
  · intro t r hnet hok
    subst hnet
    simp [staleWhileRevalidate, hok]
  · intro hnet
    subst hnet
    rfl

/-- Witness for `staleWhileRevalidate_behavior`: the concrete DYNAMIC hit is
returned even though the refresh fetch fails. -/
theorem staleWhileRevalidate_behavior_witness :
    (staleWhileRevalidate storeWithDyn demoUrl NetOutcome.failure).response =
      some respCachedDyn :=
  (staleWhileRevalidate_behavior storeWithDyn demoUrl NetOutcome.failure).2.1
    respCachedDyn (by decide)

/-- C8: the activation sweep keeps a generation, contents untouched, exactly
when its name is one of the current STATIC_CACHE, DYNAMIC_CACHE and
CACHE_NAME, and deletes every other generation. -/
theorem activateCleanup_retains_exactly_current (st : CacheStore)
    (name : String) (es : CacheEntries) :
    (name, es) ∈ (activateCleanup st).generations ↔
      ((name = STATIC_CACHE ∨ name = DYNAMIC_CACHE ∨ name = CACHE_NAME) ∧
        (name, es) ∈ st.generations) := by
  simp only [activateCleanup, List.mem_filter, Bool.or_eq_true, beq_iff_eq]
  tauto

/-- C9: a request whose method is not GET is never intercepted: the
classifier selects no strategy, the fetch handler produces no response in the
request's stead, and the cache storage after the event is exactly the storage
before it. -/
theorem nonGet_not_intercepted (req : Request) (st : CacheStore)
    (net : NetOutcome) (h : req.method ≠ "GET") :
    classifyFetch req = none ∧ handleFetch req st net = none ∧
    handleFetchStore req st net = st := by
  have hc : classifyFetch req = none := by simp [classifyFetch, h]
  exact ⟨hc, by simp [handleFetch, hc], by simp [handleFetchStore, handleFetch, hc]⟩

/-- Witness for `nonGet_not_intercepted` at a concrete POST request. -/
theorem nonGet_not_intercepted_witness :
    handleFetch postReq storeWithDyn NetOutcome.failure = none :=
  (nonGet_not_intercepted postReq storeWithDyn NetOutcome.failure
    (by decide)).2.1

/-- C10: `promptInstall` always resolves to a boolean (exceptions from the
prompt are caught and become `false`); with no stored prompt it returns false
and leaves the state untouched; whenever a prompt was attempted the deferred
prompt is cleared on the accepted, dismissed and error paths alike — so
`getInstallationStatus` afterwards reports `canInstall = false` — and the
call returns true exactly when the user accepted. -/
theorem promptInstall_behavior (st : PWAManagerState) (choice : UserChoice) :
    (st.deferredPrompt = none → promptInstall st choice = (false, st)) ∧
    (st.deferredPrompt ≠ none →
      (promptInstall st choice).2.deferredPrompt = none ∧
      (getInstallationStatus (promptInstall st choice).2).canInstall = false ∧
      (promptInstall st choice).2.isInstalled = st.isInstalled ∧
      (choice = UserChoice.accepted → (promptInstall st choice).1 = true) ∧
      (choice ≠ UserChoice.accepted → (promptInstall st choice).1 = false)) := by
  obtain ⟨dp, inst⟩ := st
  cases dp with
  | none => simp [promptInstall]
  | some u =>
    refine ⟨by simp, fun _ => ?_⟩
    cases choice <;> simp [promptInstall, getInstallationStatus]

/-- Witness for `promptInstall_behavior`: a stored prompt whose attempt throws
still ends with the deferred prompt cleared and `canInstall` false. -/
theorem promptInstall_behavior_witness :
    (getInstallationStatus
      (promptInstall ⟨some (), false⟩ UserChoice.errorThrown).2).canInstall =
      false :=
  ((promptInstall_behavior ⟨some (), false⟩ UserChoice.errorThrown).2
    (by decide)).2.1
